import Mathlib

/-!
Verification of the Research-Assistant literature discovery core.

This file gives a shallow embedding, in Lean, of the parts of
`src/literature_agent.py` and `src/embedding_agent.py` that the claims
C1-C10 are about, and settles each claim against the embedding.

Modelling conventions:
* Python strings are Lean `String`s; `str.lower`, `in` (substring),
  `str.split()` and set construction are reimplemented over `List Char` /
  `List String` so that every definition is executable by the kernel.
* Python floats are modelled as exact rationals `ℚ` (the numeric literals
  of the program are decimal and the comparisons in the claims are exact).
* Python `None` becomes `Option`, falsy-checks (`if x:`) are modelled
  explicitly, and exceptions become `Except` or `Option` results.
-/

/-- Python `s.lower()` (ASCII data), characterwise. -/
def pyLower (s : String) : String := ⟨s.data.map Char.toLower⟩

/-- Python `needle in haystack` substring test. -/
def strContains (hay needle : String) : Bool :=
  hay.data.tails.any (fun t => needle.data.isPrefixOf t)

/-- Helper for `pySplit`: walk the characters, `acc` holds the current word
reversed. -/
def splitWSGo : List Char → List Char → List String
  | [], acc => if acc.isEmpty then [] else [⟨acc.reverse⟩]
  | c :: rest, acc =>
    if c.isWhitespace then
      (if acc.isEmpty then [] else [(⟨acc.reverse⟩ : String)]) ++ splitWSGo rest []
    else splitWSGo rest (c :: acc)

/-- Python `s.split()`: split on whitespace runs, dropping empty words. -/
def pySplit (s : String) : List String := splitWSGo s.data []

/-- Python `s.strip()`: drop leading and trailing whitespace. -/
def pyStrip (s : String) : String :=
  ⟨((s.data.dropWhile Char.isWhitespace).reverse.dropWhile Char.isWhitespace).reverse⟩

/-- `len(A & B)` for Python sets represented as duplicate-free lists. -/
def interLen (a b : List String) : Nat := (a.filter (fun w => w ∈ b)).length

/-- Python `set(s.lower().split())`, as a duplicate-free list. -/
def word_set (s : String) : List String := (pySplit (pyLower s)).dedup

/-! ## Paper-type classifier (`embedding_agent.py`, `PaperTypeClassifier`) -/

/-- `PaperTypeClassifier.review_keywords`. -/
def review_keywords : List String :=
  ["review", "survey", "meta-analysis", "systematic review",
   "literature review", "overview", "synthesis", "state-of-the-art",
   "comprehensive review", "critical review", "scoping review"]

/-- `PaperTypeClassifier.conference_patterns`. -/
def conference_patterns : List String :=
  ["proceedings", "conference", "workshop", "symposium", "congress",
   "international conference", "acm", "ieee conference", "workshop on",
   "advances in", "annual conference", "icml", "nips", "neurips",
   "aaai", "ijcai", "cvpr", "iccv", "eccv", "sigkdd", "www conference"]

/-- `PaperTypeClassifier.journal_patterns`. -/
def journal_patterns : List String :=
  ["journal of", "journal", "nature", "science", "cell", "plos",
   "proceedings of the national academy", "ieee transactions",
   "acm transactions", "quarterly", "annual review", "elsevier",
   "springer", "wiley", "oxford", "cambridge", "taylor & francis"]

/-- `PaperTypeClassifier.classify_paper(title, journal, abstract)`
(`embedding_agent.py` lines 90-125). -/
def classify_paper (title journal abstract : String) : String :=
  let text_to_analyze := pyLower (title ++ " " ++ journal ++ " " ++ abstract)
  let review_score := (review_keywords.filter (fun k => strContains text_to_analyze k)).length
  if review_score ≥ 1 then "review"
  else
    let conference_score :=
      (conference_patterns.filter (fun p => strContains text_to_analyze p)).length
    let journal_score :=
      (journal_patterns.filter (fun p => strContains text_to_analyze p)).length
    if conference_score > journal_score then "conference"
    else if journal_score > 0 then "journal"
    else if ["conference", "proceedings", "workshop"].any
        (fun term => strContains (pyLower journal) term) then "conference"
    else "journal"

/-! ## SearchFilters (`literature_agent.py` lines 112-136) -/

/-- The `SearchFilters` pydantic model; the record holds the raw field
values, validation is the separate function `searchFiltersErrors`. -/
structure SearchFilters where
  year_start : Option Int := none
  year_end : Option Int := none
  min_citations : Int := 0
  max_citations : Option Int := none
  include_preprints : Bool := true
  journal_filter : Option (List String) := none
  author_filter : Option (List String) := none
  keyword_requirements : Option (List String) := none
  exclude_keywords : Option (List String) := none
  paper_type_filter : Option String := none
deriving DecidableEq, Repr

/-- pydantic `ge=1900, le=2030` on an optional year field. -/
def yearFieldOk (v : Option Int) : Bool :=
  match v with
  | none => true
  | some y => decide (1900 ≤ y) && decide (y ≤ 2030)

/-- Validation errors collected at `SearchFilters(...)` construction:
the `ge`/`le` field constraints plus the `validate_year_range` and
`validate_paper_type` validators (lines 125-136).  `validate_year_range`
only compares when both years are present and `year_start` itself passed
its own constraints (pydantic puts a field into `values` only then). -/
def searchFiltersErrors (f : SearchFilters) : List String :=
  (if yearFieldOk f.year_start then [] else ["year_start out of range"])
  ++ (if yearFieldOk f.year_end then
        (match f.year_start, f.year_end with
         | some a, some b =>
           if yearFieldOk f.year_start ∧ b < a then ["year_end must be >= year_start"] else []
         | _, _ => [])
      else ["year_end out of range"])
  ++ (if f.min_citations < 0 then ["min_citations out of range"] else [])
  ++ (match f.max_citations with
      | some m => if m < 0 then ["max_citations out of range"] else []
      | none => [])
  ++ (match f.paper_type_filter with
      | some t => if t = "review" ∨ t = "conference" ∨ t = "journal" then []
                  else ["paper_type_filter must be one of: review, conference, journal"]
      | none => [])

/-- `SearchFilters(**filters)`: raises (returns `.error`) iff validation
found errors, otherwise the constructed filters. -/
def validateSearchFilters (f : SearchFilters) : Except (List String) SearchFilters :=
  match searchFiltersErrors f with
  | [] => .ok f
  | es => .error es

/-- `search_papers_async` lines 1377-1384: the orchestrator builds
`SearchFilters(**filters)` inside `try/except`; on a validation error it
logs a warning and continues the search with default `SearchFilters()`. -/
def resolve_search_filters (f : SearchFilters) : SearchFilters :=
  match validateSearchFilters f with
  | .ok sf => sf
  | .error _ => {}

/-! ## Adapter keyword filtering (C1) -/

/-- Python truthiness of an `Optional[List[str]]` field. -/
def truthyStrList : Option (List String) → Bool
  | none => false
  | some l => !l.isEmpty

/-- The keyword filter block shared verbatim by all adapters
(`literature_agent.py` lines 556-563, 1006-1013 and the three other
copies): keep the record iff ANY required keyword occurs in
`title + " " + abstract` (case-insensitive) and no exclude keyword does. -/
def keyword_filters_pass (f : SearchFilters) (title abstract : String) : Bool :=
  let full_text := pyLower (title ++ " " ++ abstract)
  (if truthyStrList f.keyword_requirements then
     (f.keyword_requirements.getD []).any (fun req => strContains full_text (pyLower req))
   else true)
  && (if truthyStrList f.exclude_keywords then
        !((f.exclude_keywords.getD []).any (fun excl => strContains full_text (pyLower excl)))
      else true)

/-- The per-item fields `search_crossref` extracts before filtering. -/
structure ExtractedItem where
  title : String
  abstract : String
  citation_count : Int
deriving DecidableEq, Repr

/-- The filter applied to one CrossRef item (lines 549-563): citation
bounds (both guarded by Python truthiness of the bound) then keywords. -/
def crossref_item_pass (f : SearchFilters) (it : ExtractedItem) : Bool :=
  if f.min_citations ≠ 0 ∧ it.citation_count < f.min_citations then false
  else if (match f.max_citations with
           | some m => decide (m ≠ 0) && decide (it.citation_count > m)
           | none => false) then false
  else keyword_filters_pass f it.title it.abstract

/-- The CrossRef collection loop (lines 509-586): append each passing
item, breaking once `len(papers) >= max_results`. -/
def crossref_collect_go (f : SearchFilters) (max_results : Nat) :
    List ExtractedItem → Nat → List ExtractedItem
  | [], _ => []
  | it :: rest, count =>
    if crossref_item_pass f it then
      if count + 1 ≥ max_results then [it]
      else it :: crossref_collect_go f max_results rest (count + 1)
    else crossref_collect_go f max_results rest count

/-- The filtered sequence returned by `search_crossref` given the
already-extracted items. -/
def search_crossref_filtered (f : SearchFilters) (items : List ExtractedItem)
    (max_results : Nat) : List ExtractedItem :=
  crossref_collect_go f max_results items 0

/-! ## Paper record (`literature_agent.py`, `@dataclass Paper`) -/

/-- The canonical `Paper` dataclass.  Scores are rationals (float model),
`citation_count` is a natural number (the adapters only produce
non-negative counts, matching the data-model invariant). -/
structure Paper where
  title : String := ""
  authors : List String := []
  abstract : String := ""
  publication_date : String := "Unknown"
  journal : String := ""
  citation_count : Nat := 0
  url : String := ""
  doi : Option String := none
  keywords : List String := []
  relevance_score : ℚ := 0
  confidence_score : ℚ := 0
  source : String := "unknown"
  categories : List String := []
deriving DecidableEq, Repr, Inhabited

/-- The validator result record (`RelevanceScore` pydantic model). -/
structure RelevanceScoreRec where
  relevance_score : ℚ
  confidence_score : ℚ
  reasoning : String
  key_matches : List String
  concerns : List String
deriving DecidableEq, Repr

/-! ## Python float parsing and the score-extraction regex (C2) -/

/-- One digit character to its value. -/
def digitVal (c : Char) : Nat := c.toNat - '0'.toNat

/-- Decimal digits to a natural number. -/
def digitsToNat (ds : List Char) : Nat := ds.foldl (fun acc c => acc * 10 + digitVal c) 0

/-- A character allowed inside a Python numeric literal digit run. -/
def isDigitOrUS (c : Char) : Bool := c.isDigit || c = '_'

/-- A valid Python digit run: digits with single underscores strictly
between digits (the grammar `digit (["_"] digit)*`). -/
def validUSRun : List Char → Bool
  | [] => false
  | [c] => c.isDigit
  | c :: d :: rest =>
    c.isDigit &&
    (if d = '_' then validUSRun rest else validUSRun (d :: rest))

/-- Value of a valid digit run (underscores discarded). -/
def usRunVal (ds : List Char) : Nat := digitsToNat (ds.filter (fun c => c ≠ '_'))

/-- Optional sign; returns (isNegative, rest). -/
def parseSign : List Char → Bool × List Char
  | '+' :: r => (false, r)
  | '-' :: r => (true, r)
  | r => (false, r)

/-- The exponent suffix of a float literal (`e[sign]digits`), which must
consume the whole remainder; returns the exponent. -/
def parseExpPart : List Char → Option Int
  | [] => some 0
  | e :: rest =>
    if e = 'e' ∨ e = 'E' then
      let sr := parseSign rest
      let run := sr.2.takeWhile isDigitOrUS
      let rest2 := sr.2.dropWhile isDigitOrUS
      if validUSRun run && rest2.isEmpty then
        some (if sr.1 then -(usRunVal run : Int) else (usRunVal run : Int))
      else none
    else none

/-- Apply a base-10 exponent to a rational. -/
def applyExp (q : ℚ) (e : Int) : ℚ :=
  match e with
  | .ofNat n => q * (10 : ℚ) ^ n
  | .negSucc n => q / (10 : ℚ) ^ (n + 1)

/-- `float(content_clean)` on an already-stripped string: the Python
float grammar `[sign] (digits [. [digits]] | . digits) [exponent]` with
underscore group separators.  (`inf`/`nan` spellings are omitted: they
can never pass the `0.0 <= x <= 1.0` gate that immediately follows every
use of this parser, so the outcome is identical.)  Returns `none` where
`float(...)` raises `ValueError`. -/
def pyFloatParse (s : String) : Option ℚ :=
  let sc := parseSign s.data
  let intRun := sc.2.takeWhile isDigitOrUS
  let afterInt := sc.2.dropWhile isDigitOrUS
  let mantissa : Option (ℚ × List Char) :=
    if intRun.isEmpty then
      match afterInt with
      | '.' :: rest2 =>
        let fracRun := rest2.takeWhile isDigitOrUS
        let rest3 := rest2.dropWhile isDigitOrUS
        if validUSRun fracRun then
          some ((usRunVal fracRun : ℚ) / (10 : ℚ) ^ (fracRun.filter (fun c => c ≠ '_')).length, rest3)
        else none
      | _ => none
    else
      if validUSRun intRun then
        match afterInt with
        | '.' :: rest2 =>
          let fracRun := rest2.takeWhile isDigitOrUS
          let rest3 := rest2.dropWhile isDigitOrUS
          if fracRun.isEmpty then some ((usRunVal intRun : ℚ), rest3)
          else if validUSRun fracRun then
            some ((usRunVal intRun : ℚ)
              + (usRunVal fracRun : ℚ) / (10 : ℚ) ^ (fracRun.filter (fun c => c ≠ '_')).length, rest3)
          else none
        | _ => some ((usRunVal intRun : ℚ), afterInt)
      else none
  match mantissa with
  | none => none
  | some (m, rest) =>
    match parseExpPart rest with
    | none => none
    | some e => some (applyExp (if sc.1 then -m else m) e)

/-- The regex `([0-9]*\.?[0-9]+)` tried at one position: the (greedy,
backtracking) match it produces when the text starts here, else `none`. -/
def regexMatchAt (cs : List Char) : Option (List Char) :=
  let d1 := cs.takeWhile Char.isDigit
  let rest1 := cs.dropWhile Char.isDigit
  if !d1.isEmpty then
    match rest1 with
    | '.' :: r2 =>
      let d2 := r2.takeWhile Char.isDigit
      if !d2.isEmpty then some (d1 ++ '.' :: d2) else some d1
    | _ => some d1
  else
    match cs with
    | '.' :: r2 =>
      let d2 := r2.takeWhile Char.isDigit
      if !d2.isEmpty then some ('.' :: d2) else none
    | _ => none

/-- `re.search(r'([0-9]*\.?[0-9]+)', content)`: the leftmost match. -/
def regexFirstMatch : List Char → Option (List Char)
  | [] => none
  | c :: rest =>
    match regexMatchAt (c :: rest) with
    | some m => some m
    | none => regexFirstMatch rest

/-- `float(...)` of a regex group (always of the shape `digits`,
`digits.digits` or `.digits`, so it never raises). -/
def groupVal (m : List Char) : ℚ :=
  let ip := m.takeWhile Char.isDigit
  let rest := m.dropWhile Char.isDigit
  match rest with
  | '.' :: fr => (digitsToNat ip : ℚ) + (digitsToNat fr : ℚ) / (10 : ℚ) ^ fr.length
  | _ => (digitsToNat ip : ℚ)

/-- The range gate `if 0.0 <= parsed_score <= 1.0: ... else: parsed_score
= None` applied after each parse attempt (lines 1220-1223, 1234-1237). -/
def scoreGate (o : Option ℚ) : Option ℚ :=
  match o with
  | some x => if 0 ≤ x ∧ x ≤ 1 then some x else none
  | none => none

/-- The score-parsing ladder of `validate_paper_async`
(lines 1209-1239): direct `float` parse of the stripped content accepted
if in [0, 1]; otherwise the first regex match, accepted if in [0, 1];
otherwise `none` (parsing failure). -/
def parsed_score (content : String) : Option ℚ :=
  let content_clean := pyStrip content
  match scoreGate (pyFloatParse content_clean) with
  | some x => some x
  | none => scoreGate ((regexFirstMatch content_clean.data).map (fun m => groupVal m))

/-! ## Fallback scorer (`GeminiRelevanceValidator._fallback_scoring`,
lines 1263-1317) -/

/-- The fixed ML/AI vocabulary (`ml_keywords`). -/
def ml_keywords : List String :=
  ["transformer", "transformers", "attention", "bert", "gpt", "neural", "network",
   "deep", "learning", "machine", "artificial", "intelligence", "nlp", "language",
   "model", "training", "fine-tuning", "pre-training", "embedding", "encoder",
   "decoder", "self-attention", "multi-head"]

/-- `_fallback_scoring(paper, query)`.  The interpolated numerals of the
`reasoning` f-string are elided from the string model; everything the
claims quantify over (scores, matches, concerns) is exact. -/
def fallback_scoring (paper : Paper) (query : String) : RelevanceScoreRec :=
  let query_words := word_set query
  let title_words := word_set paper.title
  let abstract_words := ((pySplit (pyLower paper.abstract)).take 100).dedup
  let keyword_words := word_set (" ".intercalate paper.keywords)
  let content_text := pyLower (paper.title ++ " " ++ paper.abstract ++ " "
    ++ " ".intercalate paper.keywords)
  let ml_context_boost : ℚ :=
    min (ml_keywords.foldl
      (fun acc term => if strContains content_text term then acc + 1/10 else acc) 0) (3/10)
  let title_overlap : ℚ := (interLen query_words title_words : ℚ) / ((max query_words.length 1 : ℕ) : ℚ)
  let abstract_overlap : ℚ := (interLen query_words abstract_words : ℚ) / ((max query_words.length 1 : ℕ) : ℚ)
  let keyword_overlap : ℚ := (interLen query_words keyword_words : ℚ) / ((max query_words.length 1 : ℕ) : ℚ)
  let base_score := title_overlap * (5/10) + abstract_overlap * (3/10) + keyword_overlap * (2/10)
  let enhanced_score := base_score + ml_context_boost
  let citation_boost : ℚ := min (1/10) ((paper.citation_count : ℚ) / 1000)
  let final0 := min (enhanced_score + citation_boost) 1
  let final_score := if final0 > 1/10 then max final0 (4/10) else final0
  let matched_terms := query_words.filter (fun w => w ∈ title_words ∨ w ∈ keyword_words)
  let confidence : ℚ := if !matched_terms.isEmpty then 7/10 else 4/10
  { relevance_score := final_score
    confidence_score := confidence
    reasoning := "Enhanced relevance analysis."
    key_matches := matched_terms.take 5
    concerns := if final_score > 1/2 then [] else ["Lower confidence due to limited direct matches"] }

/-! ## Validate (`validate_paper_async`, lines 1160-1261) -/

/-- The outcome of the LLM call as seen by `Validate`: either response
content, or any transport failure / timeout (every raised exception is
caught by the outer `except`). -/
inductive LLMCallResult where
  | ok (content : String)
  | failure
deriving DecidableEq, Repr

/-- `validate_paper_async` after the LLM call: parse the content, build a
`RelevanceScore` on success (lines 1241-1251), otherwise fall back; any
transport failure also falls back (lines 1255-1261). -/
def validate_paper (paper : Paper) (query : String) (llm : LLMCallResult) : RelevanceScoreRec :=
  match llm with
  | .failure => fallback_scoring paper query
  | .ok raw =>
    match parsed_score (pyStrip raw) with
    | some s =>
      { relevance_score := s
        confidence_score := if s > 3/10 then 8/10 else 5/10
        reasoning := "AI analysis: relevance score"
        key_matches := [pyLower query]
        concerns := if s > 1/2 then [] else ["Lower confidence due to limited matches"] }
    | none => fallback_scoring paper query

/-- The condition under which `Validate` takes the fallback arm: a
transport failure/timeout, or content from which no score parses. -/
def validation_fell_back (llm : LLMCallResult) : Bool :=
  match llm with
  | .failure => true
  | .ok raw => (parsed_score (pyStrip raw)).isNone

/-! ## C10: the classifier is total and three-valued -/

/-- C10: for every input triple (title, journal, abstract), including empty
strings, `classify_paper` returns exactly one of "review", "conference" or
"journal"; it never returns "unknown" and never fails (it is a total
function of its three string arguments). -/
theorem C10_classifier_three_valued (title journal abstract : String) :
    classify_paper title journal abstract = "review" ∨
    classify_paper title journal abstract = "conference" ∨
    classify_paper title journal abstract = "journal" := by
  simp only [classify_paper]
  split_ifs <;> simp

/-! ## C8: invalid year range at SearchFilters construction -/

/-- C8 counterexample: with `year_start = 2020, year_end = 2019`,
`SearchFilters(...)` construction does raise, but the orchestrator
`search_papers_async` (lines 1377-1384) catches the error and continues
the search with default filters: the caller sees no error and the source
searches still run.  This refutes the claim that such a request is
rejected with a caller-visible error before any network call. -/
theorem C8_counterexample :
    validateSearchFilters { year_start := some 2020, year_end := some 2019 }
      = .error ["year_end must be >= year_start"] ∧
    resolve_search_filters { year_start := some 2020, year_end := some 2019 }
      = ({} : SearchFilters) :=
  ⟨rfl, rfl⟩

/-- C8 amended: whenever both years are given, lie in the field range
[1900, 2030], and `year_end < year_start`, `SearchFilters` construction
fails with the `validate_year_range` error - but the orchestrator search
swallows that error and proceeds with default `SearchFilters()`, so the
invalid year values never reach a source search while the search itself
still runs (no caller-visible rejection). -/
theorem C8_year_range_rejected_at_construction (f : SearchFilters) (a b : Int)
    (hs : f.year_start = some a) (he : f.year_end = some b)
    (hlt : b < a)
    (ha1 : 1900 ≤ a) (ha2 : a ≤ 2030) (hb1 : 1900 ≤ b) (hb2 : b ≤ 2030) :
    (∃ es, validateSearchFilters f = .error es ∧
      "year_end must be >= year_start" ∈ es) ∧
    resolve_search_filters f = ({} : SearchFilters) := by
  have hys : yearFieldOk f.year_start = true := by
    simp [yearFieldOk, hs, ha1, ha2]
  have hye : yearFieldOk f.year_end = true := by
    simp [yearFieldOk, he, hb1, hb2]
  have herr : "year_end must be >= year_start" ∈ searchFiltersErrors f := by
    unfold searchFiltersErrors
    rw [hys, hye, hs, he]
    simp [hlt, hys]
  have hne : searchFiltersErrors f ≠ [] := by
    intro h0
    rw [h0] at herr
    exact (List.not_mem_nil _) herr
  have hval : validateSearchFilters f = .error (searchFiltersErrors f) := by
    unfold validateSearchFilters
    cases h : searchFiltersErrors f with
    | nil => exact absurd h hne
    | cons x xs => rfl
  refine ⟨⟨searchFiltersErrors f, hval, herr⟩, ?_⟩
  unfold resolve_search_filters
  rw [hval]

/-- C8 witness: the amended theorem applied at a concrete invalid input. -/
theorem C8_witness :
    (∃ es, validateSearchFilters { year_start := some 2021, year_end := some 2020 }
        = .error es ∧ "year_end must be >= year_start" ∈ es) ∧
    resolve_search_filters { year_start := some 2021, year_end := some 2020 }
      = ({} : SearchFilters) :=
  C8_year_range_rejected_at_construction
    { year_start := some 2021, year_end := some 2020 } 2021 2020
    rfl rfl (by decide) (by decide) (by decide) (by decide) (by decide)

/-! ## C1: adapter keyword filtering -/

/-- C1 counterexample: with `keyword_requirements = ["alpha", "beta"]`,
the CrossRef adapter returns an item whose title+abstract contains
"alpha" but not "beta": the adapters require ANY required keyword
(`any(req.lower() in full_text ...)`), not all of them, so the returned
paper does not contain every required keyword. -/
theorem C1_counterexample :
    search_crossref_filtered { keyword_requirements := some ["alpha", "beta"] }
        [{ title := "an alpha study", abstract := "some text", citation_count := 5 }] 10
      = [{ title := "an alpha study", abstract := "some text", citation_count := 5 }] ∧
    strContains (pyLower ("an alpha study" ++ " " ++ "some text")) (pyLower "beta")
      = false := by
  constructor <;> decide

/-- Every item of the collection loop passed the per-item filter. -/
theorem mem_crossref_collect_go (f : SearchFilters) (m : Nat) :
    ∀ (items : List ExtractedItem) (count : Nat) (it : ExtractedItem),
      it ∈ crossref_collect_go f m items count → crossref_item_pass f it = true := by
  intro items
  induction items with
  | nil => intro count it h; simp [crossref_collect_go] at h
  | cons hd tl ih =>
    intro count it h
    unfold crossref_collect_go at h
    by_cases hp : crossref_item_pass f hd = true
    · rw [if_pos hp] at h
      by_cases hc : count + 1 ≥ m
      · rw [if_pos hc] at h
        simp at h
        rw [h]; exact hp
      · rw [if_neg hc] at h
        rcases List.mem_cons.mp h with h1 | h2
        · rw [h1]; exact hp
        · exact ih _ _ h2
    · rw [if_neg hp] at h
      exact ih _ _ h

/-- A passing item satisfies the keyword block. -/
theorem crossref_item_pass_keywords (f : SearchFilters) (it : ExtractedItem)
    (h : crossref_item_pass f it = true) :
    keyword_filters_pass f it.title it.abstract = true := by
  unfold crossref_item_pass at h
  split_ifs at h
  exact h

/-- C1 amended: every paper returned by the CrossRef adapter contains AT
LEAST ONE of the required keywords (when `keyword_requirements` is
non-empty) as a case-insensitive substring of title+abstract, and none of
the `exclude_keywords`; containing all required keywords is NOT
guaranteed (see `C1_counterexample`).  The same filter block is shared by
all the other adapters. -/
theorem C1_adapter_keyword_filtering (f : SearchFilters)
    (items : List ExtractedItem) (max_results : Nat) (it : ExtractedItem)
    (hmem : it ∈ search_crossref_filtered f items max_results) :
    (truthyStrList f.keyword_requirements = true →
      ∃ req ∈ f.keyword_requirements.getD [],
        strContains (pyLower (it.title ++ " " ++ it.abstract)) (pyLower req) = true) ∧
    (truthyStrList f.exclude_keywords = true →
      ∀ excl ∈ f.exclude_keywords.getD [],
        strContains (pyLower (it.title ++ " " ++ it.abstract)) (pyLower excl) = false) := by
  have hpass := mem_crossref_collect_go f max_results items 0 it hmem
  have hkw := crossref_item_pass_keywords f it hpass
  unfold keyword_filters_pass at hkw
  simp only [Bool.and_eq_true] at hkw
  obtain ⟨h1, h2⟩ := hkw
  constructor
  · intro ht
    rw [if_pos ht] at h1
    simpa [List.any_eq_true] using h1
  · intro ht
    rw [if_pos ht] at h2
    intro excl hexcl
    simp only [Bool.not_eq_true', List.any_eq_false] at h2
    simpa using h2 excl hexcl

/-- C1 witness: the amended theorem at a concrete search. -/
theorem C1_witness :
    (truthyStrList (some ["alpha"]) = true →
      ∃ req ∈ ["alpha"],
        strContains (pyLower ("an alpha study" ++ " " ++ "some text")) (pyLower req) = true) ∧
    (truthyStrList (some ["zeta"]) = true →
      ∀ excl ∈ ["zeta"],
        strContains (pyLower ("an alpha study" ++ " " ++ "some text")) (pyLower excl) = false) :=
  C1_adapter_keyword_filtering
    { keyword_requirements := some ["alpha"], exclude_keywords := some ["zeta"] }
    [{ title := "an alpha study", abstract := "some text", citation_count := 5 }] 10
    { title := "an alpha study", abstract := "some text", citation_count := 5 }
    (by decide)

/-! ## C2: score parsing -/

/-- C2 counterexample: for content `"Relevance: 1.5"` the trimmed string
does not parse directly as a float, the first regex match is `1.5`, yet
`Validate` treats this as a parsing failure and falls back - the matched
value is NOT clamped to [0, 1] as the claim states (clamping would give
relevance 1.0). -/
theorem C2_counterexample :
    pyFloatParse (pyStrip "Relevance: 1.5") = none ∧
    regexFirstMatch (pyStrip "Relevance: 1.5").data = some ['1', '.', '5'] ∧
    groupVal ['1', '.', '5'] = 3/2 ∧
    validate_paper {} "query" (.ok "Relevance: 1.5") = fallback_scoring {} "query" := by
  refine ⟨by decide, by decide, ?_, ?_⟩
  · simp +decide [groupVal, digitsToNat, digitVal]
    norm_num
  · have h : parsed_score (pyStrip "Relevance: 1.5") = none := by
      simp [parsed_score, scoreGate, pyStrip, pyFloatParse, parseSign, isDigitOrUS, validUSRun,
        regexFirstMatch, regexMatchAt, groupVal, digitsToNat, digitVal]
    simp only [validate_paper]
    rw [h]

/-- C2 amended: when the trimmed content does not parse directly as a
float, the relevance score is the value of the first regex match of
([0-9]*\.?[0-9]+) PROVIDED that value already lies in [0, 1]; it is not
clamped - content whose first match lies outside [0, 1], as well as
content with no match, is a parsing failure. -/
theorem C2_regex_extraction (content : String)
    (hdirect : pyFloatParse (pyStrip content) = none) :
    (∀ m, regexFirstMatch (pyStrip content).data = some m →
      parsed_score content =
        if 0 ≤ groupVal m ∧ groupVal m ≤ 1 then some (groupVal m) else none) ∧
    (regexFirstMatch (pyStrip content).data = none → parsed_score content = none) := by
  constructor
  · intro m hm
    simp only [parsed_score]
    rw [hdirect, hm]
    simp [scoreGate]
  · intro hm
    simp only [parsed_score]
    rw [hdirect, hm]
    simp [scoreGate]

/-- C2 witness: the amended theorem at concrete content with an in-range
first match. -/
theorem C2_witness : parsed_score "about 0.75" = some (3/4) := by
  have h := (C2_regex_extraction "about 0.75" (by decide)).1
    ['0', '.', '7', '5'] (by decide)
  rw [h]
  have hv : groupVal ['0', '.', '7', '5'] = 3/4 := by
    simp +decide [groupVal, digitsToNat, digitVal]
    norm_num
  rw [hv]
  norm_num

/-! ## C5 and C6: the validator contract and the fallback formula -/

/-- The gate only lets through values in [0, 1]. -/
theorem scoreGate_bounds (o : Option ℚ) (s : ℚ) (h : scoreGate o = some s) :
    0 ≤ s ∧ s ≤ 1 := by
  cases o with
  | none => simp [scoreGate] at h
  | some x =>
    simp only [scoreGate] at h
    by_cases hx : 0 ≤ x ∧ x ≤ 1
    · rw [if_pos hx] at h
      cases h
      exact hx
    · rw [if_neg hx] at h
      cases h

theorem parsed_score_bounds (content : String) (s : ℚ)
    (h : parsed_score content = some s) : 0 ≤ s ∧ s ≤ 1 := by
  simp only [parsed_score] at h
  cases hg : scoreGate (pyFloatParse (pyStrip content)) with
  | some x =>
    rw [hg] at h
    cases h
    exact scoreGate_bounds _ _ hg
  | none =>
    rw [hg] at h
    exact scoreGate_bounds _ _ h

/-- Folding `if p t then acc + c else acc` counts the satisfying
elements. -/
theorem foldl_if_add_eq (p : String → Bool) (c : ℚ) :
    ∀ (l : List String) (a : ℚ),
      l.foldl (fun acc t => if p t then acc + c else acc) a
        = a + c * ((l.filter p).length : ℚ) := by
  intro l
  induction l with
  | nil => intro a; simp
  | cons h t ih =>
    intro a
    by_cases hp : p h
    · simp only [List.foldl_cons, List.filter_cons, hp, if_pos, ite_true]
      rw [ih]
      simp only [List.length_cons]
      push_cast
      ring
    · simp only [List.foldl_cons, List.filter_cons, hp, ite_false, Bool.false_eq_true]
      rw [ih]

/-- The clamp-then-rescue step of the fallback scorer stays in [0, 1]. -/
theorem rescue_bounds (E : ℚ) (hE : 0 ≤ E) :
    0 ≤ (if min E 1 > 1/10 then max (min E 1) (4/10) else min E 1) ∧
    (if min E 1 > 1/10 then max (min E 1) (4/10) else min E 1) ≤ 1 := by
  have h0 : 0 ≤ min E 1 := le_min hE (by norm_num)
  have h1 : min E 1 ≤ 1 := min_le_right E 1
  constructor
  · split_ifs
    · exact le_trans (by norm_num) (le_max_right _ _)
    · exact h0
  · split_ifs
    · exact max_le h1 (by norm_num)
    · exact h1

/-- An overlap term of the fallback scorer is non-negative. -/
theorem overlap_nonneg (a b : List String) :
    0 ≤ (interLen a b : ℚ) / ((max a.length 1 : ℕ) : ℚ) :=
  div_nonneg (Nat.cast_nonneg _) (Nat.cast_nonneg _)

/-- The relevance score the fallback scorer produces lies in [0, 1]. -/
theorem fallback_relevance_bounds (paper : Paper) (query : String) :
    0 ≤ (fallback_scoring paper query).relevance_score ∧
    (fallback_scoring paper query).relevance_score ≤ 1 := by
  unfold fallback_scoring
  simp only
  apply rescue_bounds
  have hml : (0:ℚ) ≤ min (ml_keywords.foldl
      (fun acc term => if strContains (pyLower (paper.title ++ " " ++ paper.abstract ++ " "
        ++ " ".intercalate paper.keywords)) term then acc + 1/10 else acc) 0) (3/10) := by
    apply le_min _ (by norm_num)
    rw [foldl_if_add_eq]
    positivity
  have hcit : (0:ℚ) ≤ min (1/10) ((paper.citation_count : ℚ) / 1000) := by
    apply le_min (by norm_num)
    positivity
  have hbase : (0:ℚ) ≤
      (interLen (word_set query) (word_set paper.title) : ℚ)
          / ((max (word_set query).length 1 : ℕ) : ℚ) * (5/10)
        + (interLen (word_set query) (((pySplit (pyLower paper.abstract)).take 100).dedup) : ℚ)
          / ((max (word_set query).length 1 : ℕ) : ℚ) * (3/10)
        + (interLen (word_set query) (word_set (" ".intercalate paper.keywords)) : ℚ)
          / ((max (word_set query).length 1 : ℕ) : ℚ) * (2/10) := by
    have o1 := overlap_nonneg (word_set query) (word_set paper.title)
    have o2 := overlap_nonneg (word_set query) (((pySplit (pyLower paper.abstract)).take 100).dedup)
    have o3 := overlap_nonneg (word_set query) (word_set (" ".intercalate paper.keywords))
    have := mul_nonneg o1 (by norm_num : (0:ℚ) ≤ 5/10)
    have := mul_nonneg o2 (by norm_num : (0:ℚ) ≤ 3/10)
    have := mul_nonneg o3 (by norm_num : (0:ℚ) ≤ 2/10)
    linarith
  linarith

/-- The confidence score the fallback scorer produces lies in [0, 1]. -/
theorem fallback_confidence_bounds (paper : Paper) (query : String) :
    0 ≤ (fallback_scoring paper query).confidence_score ∧
    (fallback_scoring paper query).confidence_score ≤ 1 := by
  unfold fallback_scoring
  simp only
  split_ifs <;> norm_num

/-- C5: `Validate` never propagates an exception (it is a total function
of the LLM outcome): on parsing failure or on any transport
failure/timeout it returns exactly the fallback scorer result, and in all
cases the returned `RelevanceScore` has `relevance_score` and
`confidence_score` in [0, 1] and a populated `reasoning`. -/
theorem C5_validate_contract (paper : Paper) (query : String) (llm : LLMCallResult) :
    (validation_fell_back llm = true →
      validate_paper paper query llm = fallback_scoring paper query) ∧
    0 ≤ (validate_paper paper query llm).relevance_score ∧
    (validate_paper paper query llm).relevance_score ≤ 1 ∧
    0 ≤ (validate_paper paper query llm).confidence_score ∧
    (validate_paper paper query llm).confidence_score ≤ 1 ∧
    (validate_paper paper query llm).reasoning ≠ "" := by
  have hfb : validate_paper paper query llm = fallback_scoring paper query ∨
      ∃ s, parsed_score (pyStrip (match llm with | .ok raw => raw | .failure => "")) = some s ∧
        validate_paper paper query llm =
          { relevance_score := s
            confidence_score := if s > 3/10 then 8/10 else 5/10
            reasoning := "AI analysis: relevance score"
            key_matches := [pyLower query]
            concerns := if s > 1/2 then [] else ["Lower confidence due to limited matches"] } := by
    cases llm with
    | failure => exact Or.inl rfl
    | ok raw =>
      cases hp : parsed_score (pyStrip raw) with
      | none =>
        left
        simp only [validate_paper]
        rw [hp]
      | some s =>
        right
        refine ⟨s, rfl, ?_⟩
        simp only [validate_paper]
        rw [hp]
  constructor
  · intro hfell
    cases llm with
    | failure => rfl
    | ok raw =>
      simp only [validation_fell_back, Option.isNone_iff_eq_none] at hfell
      simp only [validate_paper]
      rw [hfell]
  · rcases hfb with heq | ⟨s, hs, heq⟩
    · rw [heq]
      have h1 := fallback_relevance_bounds paper query
      have h2 := fallback_confidence_bounds paper query
      have h3 : (fallback_scoring paper query).reasoning ≠ "" := by
        unfold fallback_scoring
        simp only
        decide
      exact ⟨h1.1, h1.2, h2.1, h2.2, h3⟩
    · rw [heq]
      have hb := parsed_score_bounds _ _ hs
      refine ⟨hb.1, hb.2, ?_, ?_, ?_⟩
      · split_ifs <;> norm_num
      · split_ifs <;> norm_num
      · show ("AI analysis: relevance score" : String) ≠ ""
        decide

/-- C5 witness: the contract applied on a transport failure, with the
fallback arm discharged. -/
theorem C5_witness :
    validate_paper {} "transformer models" .failure
      = fallback_scoring {} "transformer models" ∧
    0 ≤ (validate_paper {} "transformer models" .failure).relevance_score ∧
    (validate_paper {} "transformer models" .failure).relevance_score ≤ 1 := by
  have h := C5_validate_contract {} "transformer models" .failure
  exact ⟨h.1 rfl, h.2.1, h.2.2.1⟩

/-! ## C6: the deterministic fallback formula (spec refinement) -/

/-- Spec wording: `overlap(A, B) = |A∩B| / max(|A|, 1)`. -/
def spec_overlap (a b : List String) : ℚ :=
  (interLen a b : ℚ) / ((max a.length 1 : ℕ) : ℚ)

/-- Spec wording: the number of ML-vocabulary terms present in
title+abstract+keywords. -/
def spec_ml_terms (paper : Paper) : Nat :=
  (ml_keywords.filter (fun t => strContains
    (pyLower (paper.title ++ " " ++ paper.abstract ++ " " ++ " ".intercalate paper.keywords))
    t)).length

/-- Spec wording: `ml_boost = min(0.3, 0.1 x #ML-terms present)`. -/
def spec_ml_boost (paper : Paper) : ℚ :=
  min (3/10) ((1/10) * (spec_ml_terms paper : ℚ))

/-- Spec wording: `citation_boost = min(0.1, citation_count / 1000)`. -/
def spec_citation_boost (paper : Paper) : ℚ :=
  min (1/10) ((paper.citation_count : ℚ) / 1000)

/-- Spec wording: `base = 0.5 overlap(query, title) + 0.3 overlap(query,
first-100-word abstract) + 0.2 overlap(query, keywords)` over lowercase
word sets. -/
def spec_base (paper : Paper) (query : String) : ℚ :=
  (5/10) * spec_overlap (word_set query) (word_set paper.title)
  + (3/10) * spec_overlap (word_set query) (((pySplit (pyLower paper.abstract)).take 100).dedup)
  + (2/10) * spec_overlap (word_set query) (word_set (" ".intercalate paper.keywords))

/-- Spec wording: `clamp(x, 0, 1)`. -/
def spec_clamp01 (x : ℚ) : ℚ := max 0 (min x 1)

/-- Spec wording: `final = clamp(base + ml_boost + citation_boost, 0, 1)`;
if `0.1 < final` then `final = max(final, 0.4)`. -/
def spec_final (paper : Paper) (query : String) : ℚ :=
  let f := spec_clamp01 (spec_base paper query + spec_ml_boost paper + spec_citation_boost paper)
  if 1/10 < f then max f (4/10) else f

/-- Spec wording: `confidence = 0.7` if any query term appears in
title ∪ keywords else `0.4`. -/
def spec_confidence (paper : Paper) (query : String) : ℚ :=
  if (word_set query).any (fun w =>
      decide (w ∈ word_set paper.title) || decide (w ∈ word_set (" ".intercalate paper.keywords)))
  then 7/10 else 4/10

/-- Having a kept element is the same as having a satisfying element. -/
theorem filter_not_empty_any (l : List String) (p : String → Bool) :
    (!(l.filter p).isEmpty) = l.any p := by
  induction l with
  | nil => rfl
  | cons h t ih => by_cases hp : p h <;> simp [List.filter_cons, hp, ih]

/-- C6: the deterministic fallback scorer computes exactly the specified
formula: relevance = clamp-then-rescue of base + ml_boost +
citation_boost, and confidence 0.7/0.4 by query-term presence in
title ∪ keywords. -/
theorem C6_fallback_formula (paper : Paper) (query : String) :
    (fallback_scoring paper query).relevance_score = spec_final paper query ∧
    (fallback_scoring paper query).confidence_score = spec_confidence paper query := by
  have hE : (interLen (word_set query) (word_set paper.title) : ℚ)
          / ((max (word_set query).length 1 : ℕ) : ℚ) * (5/10)
        + (interLen (word_set query) (((pySplit (pyLower paper.abstract)).take 100).dedup) : ℚ)
          / ((max (word_set query).length 1 : ℕ) : ℚ) * (3/10)
        + (interLen (word_set query) (word_set (" ".intercalate paper.keywords)) : ℚ)
          / ((max (word_set query).length 1 : ℕ) : ℚ) * (2/10)
        + min (ml_keywords.foldl
            (fun acc term => if strContains (pyLower (paper.title ++ " " ++ paper.abstract ++ " "
              ++ " ".intercalate paper.keywords)) term then acc + 1/10 else acc) 0) (3/10)
        + min (1/10) ((paper.citation_count : ℚ) / 1000)
      = spec_base paper query + spec_ml_boost paper + spec_citation_boost paper := by
    rw [foldl_if_add_eq]
    unfold spec_base spec_ml_boost spec_citation_boost spec_overlap spec_ml_terms
    rw [min_comm]
    ring_nf
  have hEnn : (0:ℚ) ≤ spec_base paper query + spec_ml_boost paper + spec_citation_boost paper := by
    have o1 := overlap_nonneg (word_set query) (word_set paper.title)
    have o2 := overlap_nonneg (word_set query) (((pySplit (pyLower paper.abstract)).take 100).dedup)
    have o3 := overlap_nonneg (word_set query) (word_set (" ".intercalate paper.keywords))
    have hb : (0:ℚ) ≤ spec_base paper query := by
      unfold spec_base spec_overlap
      have := mul_nonneg (by norm_num : (0:ℚ) ≤ 5/10) o1
      have := mul_nonneg (by norm_num : (0:ℚ) ≤ 3/10) o2
      have := mul_nonneg (by norm_num : (0:ℚ) ≤ 2/10) o3
      unfold spec_overlap at *
      linarith
    have hm : (0:ℚ) ≤ spec_ml_boost paper := by
      unfold spec_ml_boost
      apply le_min (by norm_num)
      positivity
    have hc : (0:ℚ) ≤ spec_citation_boost paper := by
      unfold spec_citation_boost
      apply le_min (by norm_num)
      positivity
    linarith
  constructor
  · unfold fallback_scoring spec_final
    simp only
    rw [hE]
    unfold spec_clamp01
    rw [max_eq_right (le_min hEnn (by norm_num))]
  · unfold fallback_scoring spec_confidence
    simp only [Bool.decide_or, filter_not_empty_any]

/-! ## Deduplication (`GeminiLiteratureDiscoveryAgent._advanced_deduplication`,
lines 1664-1728) -/

/-- `_normalize_title` (lines 1708-1714): lowercase, strip
non-alphanumeric characters, collapse whitespace runs to single spaces
and strip the ends (the collapse+strip is realized as join of the
whitespace split, which is pointwise equal to it). -/
def normalize_title (title : String) : String :=
  let filtered : List Char :=
    (pyLower title).data.filter (fun c => c.isAlphanum || c.isWhitespace)
  " ".intercalate (splitWSGo filtered [])

/-- `_titles_are_similar` (lines 1716-1728): Jaccard similarity of the
normalized-title token sets against the threshold (default 0.85). -/
def titles_are_similar (title1 title2 : String) (threshold : ℚ := 85/100) : Bool :=
  let norm1 := (pySplit (normalize_title title1)).dedup
  let norm2 := (pySplit (normalize_title title2)).dedup
  if norm1.isEmpty || norm2.isEmpty then false
  else
    let intersection := interLen norm1 norm2
    let union := norm1.length + (norm2.filter (fun w => w ∉ norm1)).length
    let jaccard : ℚ := if union > 0 then (intersection : ℚ) / (union : ℚ) else 0
    decide (jaccard ≥ threshold)

/-- `paper.doi.lower() if paper.doi else None` (line 1675). -/
def doiSig (p : Paper) : Option String :=
  match p.doi with
  | some d => if d = "" then none else some (pyLower d)
  | none => none

/-- `paper.url.lower() if paper.url else None` (line 1676). -/
def urlSig (p : Paper) : Option String :=
  if p.url = "" then none else some (pyLower p.url)

/-- `self._normalize_title(paper.title)` (line 1674). -/
def titleSig (p : Paper) : String := normalize_title p.title

/-- The signatures a kept paper contributes to `seen_signatures`
(lines 1700-1704). -/
def sigsOf (p : Paper) : List String :=
  [titleSig p]
  ++ (match doiSig p with | some d => [d] | none => [])
  ++ (match urlSig p with | some u => [u] | none => [])

/-- `sig is not None and sig in seen_signatures`. -/
def sigMem (o : Option String) (seen : List String) : Bool :=
  match o with
  | some s => seen.contains s
  | none => false

theorem sigMem_nil (o : Option String) : sigMem o [] = false := by
  cases o <;> rfl

theorem sigMem_none (seen : List String) : sigMem none seen = false := rfl

/-- The `for existing_paper in unique_papers` scan (lines 1686-1696):
the first title-similar existing paper together with its position. -/
def firstSimilar (p : Paper) : List Paper → Option (Nat × Paper)
  | [] => none
  | e :: rest =>
    if titles_are_similar p.title e.title then some (0, e)
    else (firstSimilar p rest).map (fun q => (q.1 + 1, q.2))

/-- The body of `_advanced_deduplication` (lines 1672-1704): DOI/URL
signature skip, then the similarity scan; a similar existing paper is
replaced (removed, with the new paper appended) iff the new paper has
strictly more citations or is `google_scholar` displacing `arxiv`;
otherwise the new paper is dropped. -/
def dedupGo : List Paper → List Paper → List String → List Paper
  | [], unique, _ => unique
  | p :: rest, unique, seen =>
    if sigMem (doiSig p) seen then dedupGo rest unique seen
    else if sigMem (urlSig p) seen then dedupGo rest unique seen
    else
      match firstSimilar p unique with
      | some ke =>
        if p.citation_count > ke.2.citation_count
            ∨ (p.source = "google_scholar" ∧ ke.2.source = "arxiv") then
          dedupGo rest (unique.eraseIdx ke.1 ++ [p]) (seen ++ sigsOf p)
        else dedupGo rest unique seen
      | none => dedupGo rest (unique ++ [p]) (seen ++ sigsOf p)

/-- `_advanced_deduplication(papers)`. -/
def advanced_deduplication (papers : List Paper) : List Paper :=
  dedupGo papers [] []

/-! ## C3: winner selection on duplicate detection -/

/-- The two papers of the C3 counterexample: an arXiv paper with 100
citations seen first, then a `google_scholar` paper with 0 citations and
a title-identical record. -/
def cexArxiv : Paper :=
  { title := "deep learning for proteins", citation_count := 100, source := "arxiv" }

/-- See `cexArxiv`. -/
def cexScholar : Paper :=
  { title := "deep learning for proteins", citation_count := 0, source := "google_scholar" }

/-- Identical titles are similar (Jaccard 1). -/
theorem sim_proteins :
    titles_are_similar "deep learning for proteins" "deep learning for proteins" = true := by
  simp [titles_are_similar, normalize_title, pySplit, splitWSGo, pyLower, interLen]
  norm_num

/-- C3 counterexample: the deduplicator detects the two papers as
duplicates, yet keeps the 0-citation `google_scholar` paper and drops the
100-citation arXiv paper: the `google_scholar`-displaces-`arxiv` clause
is OR-ed with the citation comparison, not used as a tie-break, so the
winner is NOT the paper with the higher citation count. -/
theorem C3_counterexample :
    advanced_deduplication [cexArxiv, cexScholar] = [cexScholar] ∧
    cexScholar.citation_count < cexArxiv.citation_count := by
  constructor
  · simp [advanced_deduplication, dedupGo, sigMem, doiSig, urlSig, sigsOf, titleSig,
      firstSimilar, sim_proteins, cexArxiv, cexScholar]
  · decide

/-- C3 amended: when a later paper `b` is title-similar to an
earlier-kept paper `a` (and carries no DOI/URL signature), `b` replaces
`a` iff `b` has STRICTLY MORE citations OR (`b.source = "google_scholar"`
and `a.source = "arxiv"`) - the source preference is not a tie-break, it
also overrides a higher citation count; in every other case (including
citation ties with any other source combination) the earlier-seen paper
is kept.  The loser is dropped and the winner inherits no fields from
it. -/
theorem C3_dedup_winner (a b : Paper)
    (hsim : titles_are_similar b.title a.title = true)
    (hbd : b.doi = none) (hbu : b.url = "") :
    advanced_deduplication [a, b] =
      if b.citation_count > a.citation_count
          ∨ (b.source = "google_scholar" ∧ a.source = "arxiv")
      then [b] else [a] := by
  simp [advanced_deduplication, dedupGo, sigMem_nil, sigMem_none, doiSig, urlSig,
    firstSimilar, hsim, hbd, hbu]

/-- C3 witness: two title-identical papers, the later with more
citations; the amended rule keeps the later one. -/
theorem C3_witness :
    advanced_deduplication
      [{ title := "deep learning for proteins", citation_count := 3 },
       { title := "deep learning for proteins", citation_count := 7 }]
      = [{ title := "deep learning for proteins", citation_count := 7 }] := by
  have h := C3_dedup_winner
    { title := "deep learning for proteins", citation_count := 3 }
    { title := "deep learning for proteins", citation_count := 7 }
    sim_proteins rfl rfl
  rw [h]
  norm_num

/-! ## C4: deduplication is not idempotent -/

/-- Pairwise independence of `b` (seen later) from `a` (seen earlier):
`b` carries no DOI/URL signature colliding with `a`'s signatures, and the
titles are not similar.  A list that is pairwise independent passes
through the deduplicator unchanged. -/
def indepB (a b : Paper) : Bool :=
  !(sigMem (doiSig b) (sigsOf a))
  && !(sigMem (urlSig b) (sigsOf a))
  && !(titles_are_similar b.title a.title)

theorem sigMem_append (o : Option String) (s1 s2 : List String) :
    sigMem o (s1 ++ s2) = (sigMem o s1 || sigMem o s2) := by
  cases o with
  | none => rfl
  | some s => simp [sigMem]

theorem indepB_doi (a b : Paper) (h : indepB a b = true) :
    sigMem (doiSig b) (sigsOf a) = false := by
  simp only [indepB, Bool.and_eq_true, Bool.not_eq_true'] at h
  exact h.1.1

theorem indepB_url (a b : Paper) (h : indepB a b = true) :
    sigMem (urlSig b) (sigsOf a) = false := by
  simp only [indepB, Bool.and_eq_true, Bool.not_eq_true'] at h
  exact h.1.2

theorem indepB_title (a b : Paper) (h : indepB a b = true) :
    titles_are_similar b.title a.title = false := by
  simp only [indepB, Bool.and_eq_true, Bool.not_eq_true'] at h
  exact h.2

theorem firstSimilar_eq_none (p : Paper) :
    ∀ (l : List Paper), (∀ e ∈ l, titles_are_similar p.title e.title = false) →
      firstSimilar p l = none := by
  intro l
  induction l with
  | nil => intro _; rfl
  | cons e rest ih =>
    intro h
    have he := h e (List.mem_cons_self e rest)
    have hr := ih (fun x hx => h x (List.mem_cons_of_mem e hx))
    simp [firstSimilar, he, hr]

/-- A pairwise-independent input passes through the deduplication loop
unchanged, for any starting accumulator it is independent of. -/
theorem dedupGo_all_kept :
    ∀ (Y : List Paper), ∀ (unique : List Paper) (seen : List String),
      (∀ b ∈ Y, sigMem (doiSig b) seen = false) →
      (∀ b ∈ Y, sigMem (urlSig b) seen = false) →
      (∀ b ∈ Y, ∀ a ∈ unique, indepB a b = true) →
      Y.Pairwise (fun a b => indepB a b = true) →
      dedupGo Y unique seen = unique ++ Y := by
  intro Y
  induction Y with
  | nil => intro unique seen _ _ _ _; simp [dedupGo]
  | cons p rest ih =>
    intro unique seen h1 h2 h3 hpw
    have hd : sigMem (doiSig p) seen = false := h1 p (List.mem_cons_self p rest)
    have hu : sigMem (urlSig p) seen = false := h2 p (List.mem_cons_self p rest)
    rw [List.pairwise_cons] at hpw
    obtain ⟨hp_rest, hpw_rest⟩ := hpw
    have hfs : firstSimilar p unique = none := by
      apply firstSimilar_eq_none
      intro e he
      exact indepB_title e p (h3 p (List.mem_cons_self p rest) e he)
    have step : dedupGo (p :: rest) unique seen
        = dedupGo rest (unique ++ [p]) (seen ++ sigsOf p) := by
      simp only [dedupGo, hd, hu, hfs]
      simp
    rw [step]
    have h1' : ∀ b ∈ rest, sigMem (doiSig b) (seen ++ sigsOf p) = false := by
      intro b hb
      rw [sigMem_append, h1 b (List.mem_cons_of_mem p hb), indepB_doi p b (hp_rest b hb)]
      rfl
    have h2' : ∀ b ∈ rest, sigMem (urlSig b) (seen ++ sigsOf p) = false := by
      intro b hb
      rw [sigMem_append, h2 b (List.mem_cons_of_mem p hb), indepB_url p b (hp_rest b hb)]
      rfl
    have h3' : ∀ b ∈ rest, ∀ a ∈ unique ++ [p], indepB a b = true := by
      intro b hb a ha
      rcases List.mem_append.mp ha with hau | hap
      · exact h3 b (List.mem_cons_of_mem p hb) a hau
      · rw [List.mem_singleton.mp hap]
        exact hp_rest b hb
    rw [ih (unique ++ [p]) (seen ++ sigsOf p) h1' h2' h3' hpw_rest]
    simp

/-- C4 counterexample titles: 20 distinct single-letter tokens, the
first 17, and the last 17.  Jaccard(17-token set, 20-token set) = 0.85,
right at the threshold; Jaccard of the two 17-token sets is 0.7. -/
def tFirst17 : String := "a b c d e f g h i j k l m n o p q"

/-- See `tFirst17`. -/
def tLast17 : String := "d e f g h i j k l m n o p q r s t"

/-- See `tFirst17`. -/
def tAll20 : String := "a b c d e f g h i j k l m n o p q r s t"

/-- See `tFirst17`. -/
def pFirst : Paper := { title := tFirst17 }

/-- See `tFirst17`. -/
def pLast : Paper := { title := tLast17 }

/-- See `tFirst17`; one citation so it displaces `pFirst`. -/
def pAll : Paper := { title := tAll20, citation_count := 1 }

theorem sim_all_first : titles_are_similar tAll20 tFirst17 = true := by
  simp [titles_are_similar, tAll20, tFirst17, normalize_title, pySplit, splitWSGo,
    pyLower, interLen]
  norm_num

theorem sim_all_last : titles_are_similar tAll20 tLast17 = true := by
  simp [titles_are_similar, tAll20, tLast17, normalize_title, pySplit, splitWSGo,
    pyLower, interLen]
  norm_num

theorem sim_last_first : titles_are_similar tLast17 tFirst17 = false := by
  simp [titles_are_similar, tLast17, tFirst17, normalize_title, pySplit, splitWSGo,
    pyLower, interLen]
  norm_num

theorem dedup_three : advanced_deduplication [pFirst, pLast, pAll] = [pLast, pAll] := by
  simp [advanced_deduplication, dedupGo, sigMem, doiSig, urlSig, sigsOf, titleSig,
    firstSimilar, sim_all_first, sim_last_first, pFirst, pLast, pAll]

theorem dedup_two : advanced_deduplication [pLast, pAll] = [pAll] := by
  simp [advanced_deduplication, dedupGo, sigMem, doiSig, urlSig, sigsOf, titleSig,
    firstSimilar, sim_all_last, pLast, pAll]

/-- C4 counterexample: deduplication is NOT idempotent.  `pAll` is
similar to both `pFirst` and `pLast` (Jaccard exactly 0.85) while
`pFirst` and `pLast` are not similar to each other (0.7).  The first pass
replaces `pFirst` by `pAll` and stops scanning (`break`), leaving the
mutually similar `[pLast, pAll]`; the second pass collapses them to
`[pAll]`. -/
theorem C4_counterexample :
    advanced_deduplication (advanced_deduplication [pFirst, pLast, pAll])
      ≠ advanced_deduplication [pFirst, pLast, pAll] := by
  rw [dedup_three, dedup_two]
  intro hEq
  have := congrArg List.length hEq
  simp at this

/-- C4 amended: deduplication is idempotent only on inputs whose dedup
output is pairwise independent (no two output papers title-similar and no
DOI/URL signature collisions); `C4_counterexample` shows the output need
not be pairwise independent, so idempotence fails in general. -/
theorem C4_dedup_conditionally_idempotent (X : List Paper)
    (h : (advanced_deduplication X).Pairwise (fun a b => indepB a b = true)) :
    advanced_deduplication (advanced_deduplication X) = advanced_deduplication X := by
  have := dedupGo_all_kept (advanced_deduplication X) [] []
    (fun b _ => sigMem_nil _) (fun b _ => sigMem_nil _)
    (fun b _ a ha => absurd ha (List.not_mem_nil a)) h
  calc advanced_deduplication (advanced_deduplication X)
      = dedupGo (advanced_deduplication X) [] [] := rfl
    _ = [] ++ advanced_deduplication X := this
    _ = advanced_deduplication X := by simp

theorem sim_cats_dogs :
    titles_are_similar "convex optimization" "birdsong analysis" = false := by
  simp [titles_are_similar, normalize_title, pySplit, splitWSGo, pyLower, interLen]

/-- C4 witness: the conditional idempotence applied to two unrelated
papers. -/
theorem C4_witness :
    advanced_deduplication (advanced_deduplication
      [{ title := "birdsong analysis" }, { title := "convex optimization" }])
      = advanced_deduplication
        [{ title := "birdsong analysis" }, { title := "convex optimization" }] := by
  have hded : advanced_deduplication
      [({ title := "birdsong analysis" } : Paper), { title := "convex optimization" }]
      = [{ title := "birdsong analysis" }, { title := "convex optimization" }] := by
    simp [advanced_deduplication, dedupGo, sigMem, doiSig, urlSig, sigsOf, titleSig,
      firstSimilar, sim_cats_dogs]
  apply C4_dedup_conditionally_idempotent
  rw [hded]
  simp [List.pairwise_cons, indepB, sigMem, doiSig, urlSig, sigsOf, titleSig, sim_cats_dogs]

/-! ## C7: final selection of `search_papers_async` (lines 1612-1651) -/

/-- `safe_sort_key(paper)` (lines 1627-1631). -/
def safe_sort_key (p : Paper) : ℚ × ℚ × Nat :=
  (p.relevance_score, p.confidence_score, p.citation_count)

/-- Python tuple comparison `x <= y` on the sort key (lexicographic). -/
def keyLE (x y : ℚ × ℚ × Nat) : Bool :=
  decide (x.1 < y.1)
  || (decide (x.1 = y.1)
      && (decide (x.2.1 < y.2.1)
          || (decide (x.2.1 = y.2.1) && decide (x.2.2 ≤ y.2.2))))

/-- The list handed to the final `sorted` call (lines 1612-1633): the
high-relevance papers, topped up with the remaining papers sorted by
relevance descending (stable), truncated to `target`. -/
def pre_selection (all_validated : List Paper) (target : Nat) : List Paper :=
  let min_relevance_threshold : ℚ := 1/2
  let high_quality :=
    all_validated.filter (fun p => decide (min_relevance_threshold ≤ p.relevance_score))
  let remaining_slots := target - high_quality.length
  let lower_quality :=
    all_validated.filter (fun p => decide (p.relevance_score < min_relevance_threshold))
  let lower_sorted :=
    lower_quality.mergeSort (fun a b => decide (b.relevance_score ≤ a.relevance_score))
  (high_quality ++ lower_sorted.take remaining_slots).take target

/-- `sorted(high_quality_papers[:target], key=safe_sort_key,
reverse=True)` (lines 1633-1635): CPython sorted is a stable merge sort;
`reverse=True` on key `k` equals a stable sort with the order
`k(b) <= k(a)`. -/
def final_selection (all_validated : List Paper) (target : Nat) : List Paper :=
  (pre_selection all_validated target).mergeSort
    (fun a b => keyLE (safe_sort_key b) (safe_sort_key a))

theorem keyLE_refl (x : ℚ × ℚ × Nat) : keyLE x x = true := by
  simp [keyLE]

theorem keyLE_total (x y : ℚ × ℚ × Nat) : (keyLE x y || keyLE y x) = true := by
  simp only [keyLE, Bool.or_eq_true, Bool.and_eq_true, decide_eq_true_eq]
  rcases lt_trichotomy x.1 y.1 with h1 | h1 | h1
  · exact Or.inl (Or.inl h1)
  · rcases lt_trichotomy x.2.1 y.2.1 with h2 | h2 | h2
    · exact Or.inl (Or.inr ⟨h1, Or.inl h2⟩)
    · rcases le_total x.2.2 y.2.2 with h3 | h3
      · exact Or.inl (Or.inr ⟨h1, Or.inr ⟨h2, h3⟩⟩)
      · exact Or.inr (Or.inr ⟨h1.symm, Or.inr ⟨h2.symm, h3⟩⟩)
    · exact Or.inr (Or.inr ⟨h1.symm, Or.inl h2⟩)
  · exact Or.inr (Or.inl h1)

theorem keyLE_trans (x y z : ℚ × ℚ × Nat)
    (hxy : keyLE x y = true) (hyz : keyLE y z = true) : keyLE x z = true := by
  simp only [keyLE, Bool.or_eq_true, Bool.and_eq_true, decide_eq_true_eq] at *
  obtain h1 | ⟨e1, h1'⟩ := hxy <;> obtain h2 | ⟨e2, h2'⟩ := hyz
  · exact Or.inl (lt_trans h1 h2)
  · exact Or.inl (e2 ▸ h1)
  · exact Or.inl (e1 ▸ h2)
  · refine Or.inr ⟨e1.trans e2, ?_⟩
    obtain g1 | ⟨f1, g1'⟩ := h1' <;> obtain g2 | ⟨f2, g2'⟩ := h2'
    · exact Or.inl (lt_trans g1 g2)
    · exact Or.inl (f2 ▸ g1)
    · exact Or.inl (f1 ▸ g2)
    · exact Or.inr ⟨f1.trans f2, le_trans g1' g2'⟩

/-- C7: the final list returned by the orchestrator search has length at
most `max_results` and is sorted non-increasing by the lexicographic key
(relevance_score, confidence_score, citation_count), and papers with
equal keys keep their pre-sort relative order (stability).  (The only
other return path of `search_papers_async` is the early empty return,
which satisfies all three trivially.) -/
theorem C7_final_ranking (all_validated : List Paper) (target : Nat) :
    (final_selection all_validated target).length ≤ target ∧
    (final_selection all_validated target).Pairwise
      (fun a b => keyLE (safe_sort_key b) (safe_sort_key a) = true) ∧
    (∀ a b, safe_sort_key a = safe_sort_key b →
      List.Sublist [a, b] (pre_selection all_validated target) →
      List.Sublist [a, b] (final_selection all_validated target)) := by
  have htrans : ∀ (a b c : Paper),
      keyLE (safe_sort_key b) (safe_sort_key a) = true →
      keyLE (safe_sort_key c) (safe_sort_key b) = true →
      keyLE (safe_sort_key c) (safe_sort_key a) = true :=
    fun a b c h1 h2 => keyLE_trans _ _ _ h2 h1
  have htotal : ∀ (a b : Paper),
      (keyLE (safe_sort_key b) (safe_sort_key a)
        || keyLE (safe_sort_key a) (safe_sort_key b)) = true :=
    fun a b => keyLE_total _ _
  refine ⟨?_, ?_, ?_⟩
  · rw [final_selection, List.length_mergeSort]
    exact le_trans (List.length_take_le _ _) (le_refl _)
  · exact List.sorted_mergeSort htrans htotal _
  · intro a b hkey hsub
    apply List.pair_sublist_mergeSort htrans htotal
    · rw [hkey]
      exact keyLE_refl _
    · exact hsub

/-- C7 witness: two equal-key papers stay in order and within bounds. -/
theorem C7_witness :
    (final_selection
      [{ title := "x", relevance_score := 1 }, { title := "y", relevance_score := 1 }] 5).length ≤ 5 ∧
    (final_selection
      [{ title := "x", relevance_score := 1 }, { title := "y", relevance_score := 1 }] 5).Pairwise
      (fun a b => keyLE (safe_sort_key b) (safe_sort_key a) = true) ∧
    List.Sublist
      [({ title := "x", relevance_score := 1 } : Paper), { title := "y", relevance_score := 1 }]
      (final_selection
        [{ title := "x", relevance_score := 1 }, { title := "y", relevance_score := 1 }] 5) := by
  have hpre : pre_selection
      [({ title := "x", relevance_score := 1 } : Paper), { title := "y", relevance_score := 1 }] 5
      = [{ title := "x", relevance_score := 1 }, { title := "y", relevance_score := 1 }] := by
    norm_num [pre_selection]
  have h := C7_final_ranking
    [{ title := "x", relevance_score := 1 }, { title := "y", relevance_score := 1 }] 5
  refine ⟨h.1, h.2.1, h.2.2 _ _ rfl ?_⟩
  rw [hpre]

/-! ## C9: embedding store insert deduplication
(`embedding_agent.py`, `FAISSVectorDatabase` / `EmbeddingAgent`) -/

/-- The paper dictionary handed to `process_paper_batch` (the fields the
store reads; `paper_id` is modelled as always present, as every paper
produced by the literature agent carries one). -/
structure PaperIn where
  paper_id : String := ""
  title : String := ""
  abstract : String := ""
  journal : String := ""
  doi : Option String := none
  citation_count : Nat := 0
  relevance_score : ℚ := 0
  confidence_score : ℚ := 0
deriving DecidableEq, Repr

/-- One entry of `papers_metadata` (the asdict minus the embedding). -/
structure MetaRec where
  paper_id : String
  title : String
  abstract : String
  journal : String
  doi : Option String
  citation_count : Nat
  relevance_score : ℚ
  confidence_score : ℚ
  paper_type : String
  search_query : String
  session_id : String
deriving DecidableEq, Repr

/-- The in-memory store: the insertion-ordered dict `papers_metadata`,
the parallel `paper_ids` list, and the FAISS index row count. -/
structure VectorDB where
  metadata : List (String × MetaRec) := []
  paper_ids : List String := []
  index_rows : Nat := 0
deriving DecidableEq, Repr

/-- Python dict assignment `d[k] = v` on an insertion-ordered dict. -/
def dictSet (d : List (String × MetaRec)) (k : String) (v : MetaRec) :
    List (String × MetaRec) :=
  if d.any (fun kv => kv.1 = k) then
    d.map (fun kv => if kv.1 = k then (k, v) else kv)
  else d ++ [(k, v)]

/-- The truthy DOIs of the stored metadata (`check_duplicate_dois`
lines 431-434). -/
def existingDois (m : List (String × MetaRec)) : List String :=
  m.filterMap (fun kv =>
    match kv.2.doi with
    | some d => if d = "" then none else some d
    | none => none)

/-- `check_duplicate_dois(dois)` (lines 421-437). -/
def check_duplicate_dois (db : VectorDB) (dois : List String) : List String :=
  dois.filter (fun d => decide (d ≠ "") && decide (d ∈ existingDois db.metadata))

/-- The metadata record built for one inserted paper
(`add_papers_batch` lines 275-304), with the §4.7 type classifier. -/
def mkMeta (p : PaperIn) (search_query session_id : String) : MetaRec :=
  { paper_id := p.paper_id
    title := p.title
    abstract := p.abstract
    journal := p.journal
    doi := p.doi
    citation_count := p.citation_count
    relevance_score := p.relevance_score
    confidence_score := p.confidence_score
    paper_type := classify_paper p.title p.journal p.abstract
    search_query := search_query
    session_id := session_id }

/-- `add_papers_batch` (lines 218-326): per paper, store metadata under
its `paper_id`, append the id, and collect one embedding; at the end the
collected embeddings become index rows. -/
def add_papers_batch (db : VectorDB) (papers : List PaperIn)
    (search_query session_id : String) : VectorDB :=
  let db1 := papers.foldl (fun d p =>
    { d with
      metadata := dictSet d.metadata p.paper_id (mkMeta p search_query session_id)
      paper_ids := d.paper_ids ++ [p.paper_id] }) db
  { db1 with index_rows := db1.index_rows + papers.length }

/-- `EmbeddingAgent.process_paper_batch` (lines 446-476): skip papers
whose truthy DOI already appears in stored metadata, insert the rest. -/
def process_paper_batch (db : VectorDB) (papers : List PaperIn)
    (search_query session_id : String) : VectorDB :=
  let dois_to_check := papers.filterMap (fun p =>
    match p.doi with
    | some d => if d = "" then none else some d
    | none => none)
  let existing := check_duplicate_dois db dois_to_check
  let unique := papers.filter (fun p =>
    !(match p.doi with
      | some d => decide (d ≠ "") && decide (d ∈ existing)
      | none => false))
  add_papers_batch db unique search_query session_id

/-- `get_database_stats()["total_papers"]` = `len(papers_metadata)`
(lines 386-419; the empty early return also reports 0). -/
def total_papers (db : VectorDB) : Nat := db.metadata.length

/-- The number of metadata entries carrying a given DOI. -/
def countDoiMeta (db : VectorDB) (d : String) : Nat :=
  (db.metadata.filter (fun kv => kv.2.doi = some d)).length

/-- A fresh insert (new DOI, new paper id) appends one metadata entry,
one id, one index row. -/
theorem insert_fresh (db : VectorDB) (p : PaperIn) (d q s : String)
    (hd : p.doi = some d) (hne : d ≠ "")
    (hdoi : d ∉ existingDois db.metadata)
    (hid : db.metadata.any (fun kv => kv.1 = p.paper_id) = false) :
    process_paper_batch db [p] q s =
      { metadata := db.metadata ++ [(p.paper_id, mkMeta p q s)]
        paper_ids := db.paper_ids ++ [p.paper_id]
        index_rows := db.index_rows + 1 } := by
  unfold process_paper_batch check_duplicate_dois add_papers_batch dictSet
  simp [hd, hne, hdoi, hid]

/-- Inserting a paper whose DOI is already stored changes nothing. -/
theorem insert_dup (db : VectorDB) (p : PaperIn) (d q s : String)
    (hd : p.doi = some d) (hne : d ≠ "")
    (hdoi : d ∈ existingDois db.metadata) :
    process_paper_batch db [p] q s = db := by
  unfold process_paper_batch check_duplicate_dois add_papers_batch
  simp [hd, hne, hdoi]

/-- C9: inserting the same paper (same non-empty, previously unseen DOI,
fresh paper id) twice results in exactly one metadata entry and one
index row (one `paper_ids` occurrence) for that DOI: the second insert is
the identity on the store, so `stats.total_papers` is unchanged by it. -/
theorem C9_store_insert_idempotent (db : VectorDB) (p : PaperIn) (d q s : String)
    (hd : p.doi = some d) (hne : d ≠ "")
    (hdoi : d ∉ existingDois db.metadata)
    (hid : ∀ kv ∈ db.metadata, kv.1 ≠ p.paper_id)
    (hpid : p.paper_id ∉ db.paper_ids) :
    process_paper_batch (process_paper_batch db [p] q s) [p] q s
      = process_paper_batch db [p] q s ∧
    countDoiMeta (process_paper_batch db [p] q s) d = 1 ∧
    (process_paper_batch db [p] q s).paper_ids.count p.paper_id = 1 ∧
    (process_paper_batch db [p] q s).index_rows = db.index_rows + 1 ∧
    total_papers (process_paper_batch (process_paper_batch db [p] q s) [p] q s)
      = total_papers (process_paper_batch db [p] q s) := by
  have hidb : db.metadata.any (fun kv => kv.1 = p.paper_id) = false := by
    rw [List.any_eq_false]
    intro kv hkv
    simpa using hid kv hkv
  have h1 := insert_fresh db p d q s hd hne hdoi hidb
  have hexist1 : d ∈ existingDois (process_paper_batch db [p] q s).metadata := by
    rw [h1]
    unfold existingDois
    rw [List.filterMap_append]
    apply List.mem_append_right
    simp [mkMeta, hd, hne]
  have h2 := insert_dup (process_paper_batch db [p] q s) p d q s hd hne hexist1
  refine ⟨h2, ?_, ?_, ?_, by rw [h2]⟩
  · rw [h1]
    unfold countDoiMeta
    simp only [List.filter_append, List.length_append]
    have hcount0 : (db.metadata.filter (fun kv => kv.2.doi = some d)).length = 0 := by
      rw [List.length_eq_zero, List.filter_eq_nil_iff]
      intro kv hkv hkd
      apply hdoi
      unfold existingDois
      apply List.mem_filterMap.mpr
      refine ⟨kv, hkv, ?_⟩
      simp at hkd
      simp [hkd, hne]
    rw [hcount0]
    simp [mkMeta, hd]
  · rw [h1]
    simp only [List.count_append]
    rw [List.count_eq_zero.mpr hpid]
    simp
  · rw [h1]

/-- C9 witness: the theorem at a concrete empty store and paper. -/
theorem C9_witness :
    process_paper_batch (process_paper_batch {} [{ paper_id := "p1", doi := some "10.1/abc" }] "q" "s")
        [{ paper_id := "p1", doi := some "10.1/abc" }] "q" "s"
      = process_paper_batch {} [{ paper_id := "p1", doi := some "10.1/abc" }] "q" "s" ∧
    countDoiMeta (process_paper_batch {} [{ paper_id := "p1", doi := some "10.1/abc" }] "q" "s")
      "10.1/abc" = 1 ∧
    (process_paper_batch {} [{ paper_id := "p1", doi := some "10.1/abc" }] "q" "s").paper_ids.count
      "p1" = 1 ∧
    (process_paper_batch {} [{ paper_id := "p1", doi := some "10.1/abc" }] "q" "s").index_rows
      = 0 + 1 ∧
    total_papers (process_paper_batch
        (process_paper_batch {} [{ paper_id := "p1", doi := some "10.1/abc" }] "q" "s")
        [{ paper_id := "p1", doi := some "10.1/abc" }] "q" "s")
      = total_papers (process_paper_batch {} [{ paper_id := "p1", doi := some "10.1/abc" }] "q" "s") :=
  C9_store_insert_idempotent {} { paper_id := "p1", doi := some "10.1/abc" } "10.1/abc" "q" "s"
    rfl (by decide) (by simp [existingDois]) (by simp) (by simp)
